import Mathlib

/-!
Shallow embedding of the event-service builder
(`src/iceoryx2/src/service/builder/event.rs`) and of the `WaitSet`
(`src/iceoryx2/src/port/waitset.rs`).

Pure data is translated directly; effectful calls into collaborators that
live outside these two files (the filesystem-backed service state sampler,
the static/dynamic storages, the reactor, the timer and the signal handler)
are passed in explicitly as values describing what the collaborator
returned, so every function below is a pure function of the source code's
control flow over those results.
-/

/-- The event-pattern settings of `static_config::event::StaticConfig`:
`max_notifiers`, `max_listeners`, `event_id_max_value`. -/
structure EventStaticConfig where
  max_notifiers : Nat
  max_listeners : Nat
  event_id_max_value : Nat
deriving DecidableEq, Repr

/-- `MessagingPattern`: the discriminator stored in a service's static
config.  Only the `Event` variant carries settings the builder reads;
every other pattern is collapsed into one constructor. -/
inductive MessagingPattern where
  | event (cfg : EventStaticConfig)
  | publishSubscribe
deriving DecidableEq, Repr

/-- `EventOpenError` from `service/builder/event.rs`. -/
inductive EventOpenError where
  | DoesNotExist
  | PermissionDenied
  | EventInCorruptedState
  | IncompatibleMessagingPattern
  | InternalFailure
  | HangsInCreation
  | DoesNotSupportRequestedAmountOfNotifiers
  | DoesNotSupportRequestedAmountOfListeners
  | DoesNotSupportRequestedMaxEventId
  | UnableToOpenDynamicServiceInformation
deriving DecidableEq, Repr

/-- `EventCreateError` from `service/builder/event.rs`. -/
inductive EventCreateError where
  | Corrupted
  | InternalFailure
  | IsBeingCreatedByAnotherInstance
  | AlreadyExists
  | PermissionDenied
  | UnableToCreateStaticServiceInformation
  | OldConnectionsStillActive
deriving DecidableEq, Repr

/-- `ServiceState`: the error states `base.is_service_available()` can
report (the builder matches exactly these four). -/
inductive ServiceState where
  | IsBeingCreatedByAnotherInstance
  | PermissionDenied
  | IncompatibleMessagingPattern
  | Corrupted
deriving DecidableEq, Repr

/-- One result of `base.is_service_available()`: `Ok(None)` (absent),
`Ok(Some((static_config, storage)))` (available, with the deserialized
messaging pattern), or `Err(state)`. -/
inductive AvailResult where
  | absent
  | someCfg (existing : MessagingPattern)
  | err (e : ServiceState)
deriving DecidableEq, Repr

/-- The event `Builder`: the event settings held in
`base.service_config` plus the three `verify_*` flags. -/
structure EventBuilder where
  service_config : EventStaticConfig
  verify_max_notifiers : Bool
  verify_max_listeners : Bool
  verify_event_id_max_value : Bool
deriving DecidableEq, Repr

/-- `Builder::new`: settings come from the local config's defaults, all
three verify flags start `false`. -/
def EventBuilder.new (defaults : EventStaticConfig) : EventBuilder :=
  ⟨defaults, false, false, false⟩

/-- Setter `Builder::max_notifiers`: records the value and arms its
verify flag. -/
def EventBuilder.max_notifiers (b : EventBuilder) (value : Nat) : EventBuilder :=
  { b with
    service_config := { b.service_config with max_notifiers := value }
    verify_max_notifiers := true }

/-- Setter `Builder::max_listeners`: records the value and arms its
verify flag. -/
def EventBuilder.max_listeners (b : EventBuilder) (value : Nat) : EventBuilder :=
  { b with
    service_config := { b.service_config with max_listeners := value }
    verify_max_listeners := true }

/-- Setter `Builder::event_id_max_value`: records the value and arms its
verify flag. -/
def EventBuilder.event_id_max_value (b : EventBuilder) (value : Nat) : EventBuilder :=
  { b with
    service_config := { b.service_config with event_id_max_value := value }
    verify_event_id_max_value := true }

/-- `Builder::verify_service_properties`: reject a non-event pattern,
then check each armed minimum against the existing settings, in source
order (notifiers, listeners, event-id); on success return the existing
event settings. -/
def verify_service_properties (b : EventBuilder) (existing : MessagingPattern) :
    Except EventOpenError EventStaticConfig :=
  match existing with
  | .event v =>
    if b.verify_max_notifiers = true ∧ v.max_notifiers < b.service_config.max_notifiers then
      .error .DoesNotSupportRequestedAmountOfNotifiers
    else if b.verify_max_listeners = true ∧ v.max_listeners < b.service_config.max_listeners then
      .error .DoesNotSupportRequestedAmountOfListeners
    else if b.verify_event_id_max_value = true ∧
        v.event_id_max_value < b.service_config.event_id_max_value then
      .error .DoesNotSupportRequestedMaxEventId
    else
      .ok v
  | _ => .error .IncompatibleMessagingPattern

/-- Outcome of `Builder::open`: a port factory carrying the event
settings written into `service_config`, or an `EventOpenError`. -/
inductive OpenResult where
  | ok (factory_cfg : EventStaticConfig)
  | err (e : EventOpenError)
deriving DecidableEq, Repr

/-- The retry loop of `Builder::open`.  `samples n` is what the n-th call
to `is_service_available()` returned; `elapsed n` is the cumulative time
the adaptive wait reports after its n-th `wait()` call; `dynOk` is whether
`open_dynamic_config_storage()` succeeds; `fuel` bounds the recursion
(`none` = fuel ran out before the loop returned).  Mirrors the `loop` at
`event.rs` lines 193-244, including its mapping of the
`IncompatibleMessagingPattern` state to `EventOpenError::PermissionDenied`. -/
def openLoop (b : EventBuilder) (creation_timeout : Nat) (samples : Nat → AvailResult)
    (elapsed : Nat → Nat) (dynOk : Bool) : Nat → Nat → Option OpenResult
  | 0, _ => none
  | fuel + 1, n =>
    match samples n with
    | .absent => some (.err .DoesNotExist)
    | .someCfg existing =>
      match verify_service_properties b existing with
      | .error e => some (.err e)
      | .ok cfg =>
        if dynOk then some (.ok cfg)
        else some (.err .UnableToOpenDynamicServiceInformation)
    | .err .IsBeingCreatedByAnotherInstance =>
      if creation_timeout < elapsed (n + 1) then some (.err .HangsInCreation)
      else openLoop b creation_timeout samples elapsed dynOk fuel (n + 1)
    | .err .PermissionDenied => some (.err .PermissionDenied)
    | .err .IncompatibleMessagingPattern => some (.err .PermissionDenied)
    | .err .Corrupted => some (.err .EventInCorruptedState)

/-- `Builder::adjust_properties_to_meaningful_values`: clamp 0-valued
`max_notifiers` / `max_listeners` to 1 (with a warning in the source). -/
def adjust_properties_to_meaningful_values (c : EventStaticConfig) : EventStaticConfig :=
  { c with
    max_notifiers := if c.max_notifiers = 0 then 1 else c.max_notifiers
    max_listeners := if c.max_listeners = 0 then 1 else c.max_listeners }

/-- `StaticStorageCreateError` as matched by `create_impl`:
`AlreadyExists`, `Creation`, and a catch-all for every other variant. -/
inductive StaticStorageCreateError where
  | AlreadyExists
  | Creation
  | otherFailure
deriving DecidableEq, Repr

/-- `DynamicStorageCreateError` as matched by `create_impl`:
`AlreadyExists` and a catch-all for every other variant. -/
inductive DynamicStorageCreateError where
  | AlreadyExists
  | otherFailure
deriving DecidableEq, Repr

deriving instance DecidableEq for Except

/-- What the collaborators of `Builder::create_impl` return: the state
sample, the exclusive static-storage creation, the dynamic-storage
creation, and whether serialization and the sealing unlock succeed. -/
structure CreateWorld where
  avail : AvailResult
  static_create : Except StaticStorageCreateError Unit
  dynamic_create : Except DynamicStorageCreateError Unit
  serialize_ok : Bool
  unlock_ok : Bool
deriving DecidableEq, Repr

/-- Outcome of `Builder::create`: a port factory carrying the (adjusted)
event settings, or an `EventCreateError`. -/
inductive CreateResult where
  | ok (factory_cfg : EventStaticConfig)
  | err (e : EventCreateError)
deriving DecidableEq, Repr

/-- `Builder::create_impl` (`event.rs` lines 247-331): first clamp the
requested capacities, then dispatch on the state sample; in the absent
case create the static artifact exclusively, the dynamic storage, then
serialize and seal. -/
def create_impl (b : EventBuilder) (w : CreateWorld) : CreateResult :=
  let cfg := adjust_properties_to_meaningful_values b.service_config
  match w.avail with
  | .absent =>
    match w.static_create with
    | .error .AlreadyExists => .err .AlreadyExists
    | .error .Creation => .err .IsBeingCreatedByAnotherInstance
    | .error .otherFailure => .err .UnableToCreateStaticServiceInformation
    | .ok _ =>
      match w.dynamic_create with
      | .error .AlreadyExists => .err .OldConnectionsStillActive
      | .error .otherFailure => .err .InternalFailure
      | .ok _ =>
        if w.serialize_ok = false then .err .Corrupted
        else if w.unlock_ok = false then .err .Corrupted
        else .ok cfg
  | .someCfg _ => .err .AlreadyExists
  | .err .IncompatibleMessagingPattern => .err .AlreadyExists
  | .err .PermissionDenied => .err .PermissionDenied
  | .err .Corrupted => .err .Corrupted
  | .err .IsBeingCreatedByAnotherInstance => .err .IsBeingCreatedByAnotherInstance

/-- Outcome of `Builder::open_or_create`
(`EventOpenOrCreateError` keeps the two error kinds apart). -/
inductive OpenOrCreateResult where
  | ok (factory_cfg : EventStaticConfig)
  | errOpen (e : EventOpenError)
  | errCreate (e : EventCreateError)
deriving DecidableEq, Repr

/-- Inject an `open` outcome into an `open_or_create` outcome. -/
def ofOpen : OpenResult → OpenOrCreateResult
  | .ok cfg => .ok cfg
  | .err e => .errOpen e

/-- The builder after `create_impl` ran
`adjust_properties_to_meaningful_values` on `self` (`create_impl` mutates
`base.service_config`, so a fallback `open()` sees the clamped values). -/
def adjustBuilder (b : EventBuilder) : EventBuilder :=
  { b with service_config := adjust_properties_to_meaningful_values b.service_config }

/-- `Builder::open_or_create` (`event.rs` lines 156-183): dispatch on the
initial state sample; on `Ok(Some(_))` or the being-created state open,
on `Ok(None)` create and fall back to open when the create lost the race
with `AlreadyExists` / `IsBeingCreatedByAnotherInstance`. -/
def open_or_create (b : EventBuilder) (initial : AvailResult) (w : CreateWorld)
    (creation_timeout : Nat) (samples : Nat → AvailResult) (elapsed : Nat → Nat)
    (dynOk : Bool) (fuel : Nat) : Option OpenOrCreateResult :=
  match initial with
  | .someCfg _ =>
    (openLoop b creation_timeout samples elapsed dynOk fuel 0).map ofOpen
  | .absent =>
    match create_impl b w with
    | .ok cfg => some (.ok cfg)
    | .err .AlreadyExists =>
      (openLoop (adjustBuilder b) creation_timeout samples elapsed dynOk fuel 0).map ofOpen
    | .err .IsBeingCreatedByAnotherInstance =>
      (openLoop (adjustBuilder b) creation_timeout samples elapsed dynOk fuel 0).map ofOpen
    | .err e => some (.errCreate e)
  | .err .IsBeingCreatedByAnotherInstance =>
    (openLoop b creation_timeout samples elapsed dynOk fuel 0).map ofOpen
  | .err .Corrupted => some (.errOpen .EventInCorruptedState)
  | .err .IncompatibleMessagingPattern => some (.errOpen .IncompatibleMessagingPattern)
  | .err .PermissionDenied => some (.errOpen .PermissionDenied)

/-- `WaitEvent` from `port/waitset.rs`. -/
inductive WaitEvent where
  | TerminationRequest
  | Interrupt
  | Tick
  | Notification
deriving DecidableEq, Repr

/-- `WaitSetAttachmentError` from `port/waitset.rs`. -/
inductive WaitSetAttachmentError where
  | InsufficientCapacity
  | AlreadyAttached
  | InternalError
deriving DecidableEq, Repr

/-- `WaitSetWaitError` from `port/waitset.rs`. -/
inductive WaitSetWaitError where
  | InsufficientPermissions
  | InternalError
deriving DecidableEq, Repr

/-- `ReactorAttachError` as matched by `WaitSet::attach_to_reactor`. -/
inductive ReactorAttachError where
  | AlreadyAttached
  | CapacityExceeded
  | UnknownError (code : Int)
deriving DecidableEq, Repr

/-- `AttachmentIdType`: the first component is the `WaitSet`'s address
(`u64`), `reactor_idx` is the attachment's raw file descriptor (`i32`),
`timer_idx` the `TimerIndex`. -/
inductive AttachmentIdType where
  | tick (waitset : Nat) (timer_idx : Nat)
  | deadline (waitset : Nat) (reactor_idx : Int) (timer_idx : Nat)
  | notification (waitset : Nat) (reactor_idx : Int)
deriving DecidableEq, Repr

/-- `WaitSet::attach_to_reactor` (`waitset.rs` lines 515-538), as the
mapping from the reactor's `attach` result (`Ok` carries the guard's raw
fd) to the waitset's result.  Mirrors the source exactly: the
`CapacityExceeded` branch also returns `AlreadyAttached`. -/
def attach_to_reactor (r : Except ReactorAttachError Int) :
    Except WaitSetAttachmentError Int :=
  match r with
  | .ok fd => .ok fd
  | .error .AlreadyAttached => .error .AlreadyAttached
  | .error .CapacityExceeded => .error .AlreadyAttached
  | .error (.UnknownError _) => .error .InternalError

/-- `WaitSet::attach_to_timer`: any failure of `Timer::cyclic` becomes
`InternalError`; `Ok` carries the new `TimerIndex`. -/
def attach_to_timer (t : Except Unit Nat) : Except WaitSetAttachmentError Nat :=
  match t with
  | .ok idx => .ok idx
  | .error _ => .error .InternalError

/-- The guard data of a successful attachment (`GuardType`). -/
inductive GuardType where
  | tick (timer_idx : Nat)
  | deadline (reactor_idx : Int) (timer_idx : Nat)
  | notification (reactor_idx : Int)
deriving DecidableEq, Repr

/-- `WaitSet::notification`: attach to the reactor only. -/
def WaitSet.notification (r : Except ReactorAttachError Int) :
    Except WaitSetAttachmentError GuardType :=
  (attach_to_reactor r).map GuardType.notification

/-- `WaitSet::deadline`: attach to the reactor, then to the timer. -/
def WaitSet.deadline (r : Except ReactorAttachError Int) (t : Except Unit Nat) :
    Except WaitSetAttachmentError GuardType :=
  match attach_to_reactor r with
  | .error e => .error e
  | .ok fd =>
    match attach_to_timer t with
    | .error e => .error e
    | .ok idx => .ok (GuardType.deadline fd idx)

/-- `WaitSet::tick`: attach to the timer only. -/
def WaitSet.tick (t : Except Unit Nat) : Except WaitSetAttachmentError GuardType :=
  (attach_to_timer t).map GuardType.tick

/-- The mutable maps of a `WaitSet` consulted by `run`:
`deadline_to_timer` (fd to timer index) and its unused inverse. -/
structure WaitSetState where
  deadline_to_timer : List (Int × Nat)
  timer_to_deadline : List (Nat × Int)
deriving DecidableEq, Repr

/-- Lookup in the `deadline_to_timer` hash map. -/
def lookupDeadline : List (Int × Nat) → Int → Option Nat
  | [], _ => none
  | (fd, idx) :: rest, x => if fd = x then some idx else lookupDeadline rest x

/-- `WaitSet::contains_deadlines`. -/
def contains_deadlines (s : WaitSetState) : Bool :=
  !s.deadline_to_timer.isEmpty

/-- What `Reactor::timed_wait` reported: `ready fds` is `Ok(n)` with the
file descriptors collected by the per-fd closure (`n = fds.length`,
possibly 0 on a spurious wakeup or timeout). -/
inductive ReactorWaitResult where
  | ready (fds : List Int)
  | interrupt
  | insufficientPermissions
  | unknownError
deriving DecidableEq, Repr

/-- What the collaborators of one `WaitSet::run` call return: the signal
handler's termination flag, whether `duration_until_next_timeout`
succeeds, the reactor result, the timer indices `missed_timeouts`
reports, and whether `Timer::reset` succeeds. -/
structure RunWorld where
  termination_requested : Bool
  timer_next_ok : Bool
  reactor : ReactorWaitResult
  missed : List Nat
  reset_ok : Bool
deriving DecidableEq, Repr

/-- Everything one `WaitSet::run` call did: its result, whether it
reached the reactor wait, which deadline timers it reset (in order), and
the attachment ids passed to the user callback (in order). -/
structure RunOutput where
  result : Except WaitSetWaitError WaitEvent
  waited : Bool
  resets : List Nat
  callbacks : List AttachmentIdType
deriving DecidableEq, Repr

/-- `WaitSet::run` (`waitset.rs` lines 429-498). `wsid` is the waitset's
address baked into every `AttachmentId`.  Termination is checked first;
then the next timeout is computed; on `Ok(0)` the missed timers fire as
tick ids; on `Ok(n)` each ready fd that has a deadline entry gets its
timer reset and a *deadline* id, the rest get *notification* ids. -/
def WaitSet.run (wsid : Nat) (s : WaitSetState) (w : RunWorld) : RunOutput :=
  if w.termination_requested then
    ⟨.ok .TerminationRequest, false, [], []⟩
  else if w.timer_next_ok = false then
    ⟨.error .InternalError, false, [], []⟩
  else
    match w.reactor with
    | .ready [] =>
      ⟨.ok .Tick, true, [], w.missed.map (AttachmentIdType.tick wsid)⟩
    | .ready (fd :: rest) =>
      let fds := fd :: rest
      if contains_deadlines s then
        let pairs := fds.map fun f => (f, lookupDeadline s.deadline_to_timer f)
        if w.reset_ok = false ∧ pairs.any fun p => p.2.isSome then
          ⟨.error .InternalError, true, [], []⟩
        else
          ⟨.ok .Notification, true,
            pairs.filterMap fun p => p.2,
            pairs.map fun p =>
              match p.2 with
              | some idx => AttachmentIdType.deadline wsid p.1 idx
              | none => AttachmentIdType.notification wsid p.1⟩
      else
        ⟨.ok .Notification, true, [], fds.map (AttachmentIdType.notification wsid)⟩
    | .interrupt => ⟨.ok .Interrupt, true, [], []⟩
    | .insufficientPermissions => ⟨.error .InsufficientPermissions, true, [], []⟩
    | .unknownError => ⟨.error .InternalError, true, [], []⟩

/-- C9: whenever the signal handler reports a termination request,
`WaitSet::run` returns `Ok(WaitEvent::TerminationRequest)` immediately:
it does not reach the reactor wait, resets no timer and invokes no
callback, regardless of the waitset's deadline maps and of what the
other collaborators would have returned. -/
theorem run_termination_request_first (wsid : Nat) (s : WaitSetState) (w : RunWorld)
    (h : w.termination_requested = true) :
    WaitSet.run wsid s w = ⟨.ok .TerminationRequest, false, [], []⟩ := by
  simp [WaitSet.run, h]

/-- Witness for C9 at a concrete world in which the reactor would have
reported a ready fd and a timer had fired. -/
theorem run_termination_request_first_witness :
    WaitSet.run 7 ⟨[(5, 3)], [(3, 5)]⟩ ⟨true, true, .ready [5], [2], true⟩ =
      ⟨.ok .TerminationRequest, false, [], []⟩ :=
  run_termination_request_first 7 ⟨[(5, 3)], [(3, 5)]⟩ ⟨true, true, .ready [5], [2], true⟩ rfl

/-- C1 counterexample: one deadline attachment (fd 5, deadline timer 3).
When fd 5 becomes ready before the deadline, the callback receives the
*deadline* attachment id, not a *notification* id as the claim states;
when the deadline timer fires first (0 ready fds), the callback receives
a *tick* id for timer 3, not a *deadline* id. -/
theorem run_deadline_claim_false :
    (WaitSet.run 7 ⟨[(5, 3)], [(3, 5)]⟩ ⟨false, true, .ready [5], [], true⟩).callbacks
        = [AttachmentIdType.deadline 7 5 3] ∧
    (WaitSet.run 7 ⟨[(5, 3)], [(3, 5)]⟩ ⟨false, true, .ready [5], [], true⟩).callbacks
        ≠ [AttachmentIdType.notification 7 5] ∧
    (WaitSet.run 7 ⟨[(5, 3)], [(3, 5)]⟩ ⟨false, true, .ready [], [3], true⟩).callbacks
        = [AttachmentIdType.tick 7 3] ∧
    (WaitSet.run 7 ⟨[(5, 3)], [(3, 5)]⟩ ⟨false, true, .ready [], [3], true⟩).callbacks
        ≠ [AttachmentIdType.deadline 7 5 3] := by
  decide

/-- C1 amended: during `run`, a ready fd that has a deadline entry gets
its timer reset and the callback is invoked with the *deadline*
attachment id of that attachment (ready fds without a deadline entry get
*notification* ids); when the reactor reports 0 ready fds, every missed
timer — a deadline timer included — is delivered as a *tick* id. -/
theorem run_deadline_semantics (wsid : Nat) (s : WaitSetState) (w : RunWorld)
    (hterm : w.termination_requested = false) (htimer : w.timer_next_ok = true)
    (hreset : w.reset_ok = true) :
    (∀ fd rest, w.reactor = .ready (fd :: rest) → contains_deadlines s = true →
      WaitSet.run wsid s w =
        ⟨.ok .Notification, true,
          (fd :: rest).filterMap (fun f => lookupDeadline s.deadline_to_timer f),
          (fd :: rest).map (fun f =>
            match lookupDeadline s.deadline_to_timer f with
            | some idx => AttachmentIdType.deadline wsid f idx
            | none => AttachmentIdType.notification wsid f)⟩) ∧
    (w.reactor = .ready [] →
      WaitSet.run wsid s w =
        ⟨.ok .Tick, true, [], w.missed.map (AttachmentIdType.tick wsid)⟩) := by
  constructor
  · intro fd rest hr hd
    simp [WaitSet.run, hterm, htimer, hr, hd, hreset]
    cases hlook : lookupDeadline s.deadline_to_timer fd <;>
      simp [hlook, List.filterMap_cons, List.filterMap_map] <;> rfl
  · intro hr
    simp [WaitSet.run, hterm, htimer, hr]

/-- Witness for the amended C1: fd 5 carries deadline timer 3, fd 9 has
no deadline; both are ready; timer 3 is reset and the callback sees the
deadline id for fd 5 and a notification id for fd 9. -/
theorem run_deadline_semantics_witness :
    WaitSet.run 7 ⟨[(5, 3)], [(3, 5)]⟩ ⟨false, true, .ready [5, 9], [], true⟩ =
      ⟨.ok .Notification, true, [3],
        [AttachmentIdType.deadline 7 5 3, AttachmentIdType.notification 7 9]⟩ := by
  have h := (run_deadline_semantics 7 ⟨[(5, 3)], [(3, 5)]⟩
      ⟨false, true, .ready [5, 9], [], true⟩ rfl rfl rfl).1 5 [9] rfl rfl
  exact h.trans (by decide)

/-- C3: evaluation at the failing input.  When the reactor rejects an
attachment with `CapacityExceeded`, `attach_to_reactor` — and with it
`WaitSet::notification` and `WaitSet::deadline` — returns
`AlreadyAttached` instead of `InsufficientCapacity`, even though the
accompanying log message speaks of the exceeded capacity;
`AlreadyAttached` is also the result for an already attached object, so
the two failure causes are indistinguishable to the caller. -/
theorem attach_capacity_exceeded_yields_already_attached :
    attach_to_reactor (.error .CapacityExceeded) = .error .AlreadyAttached ∧
    WaitSet.notification (.error .CapacityExceeded) = .error .AlreadyAttached ∧
    WaitSet.deadline (.error .CapacityExceeded) (.ok 0) = .error .AlreadyAttached ∧
    WaitSet.notification (.error .CapacityExceeded) ≠ .error .InsufficientCapacity ∧
    WaitSet.notification (.error .AlreadyAttached) = .error .AlreadyAttached := by
  decide

/-- C2: evaluation at the failing input.  `Builder::open` maps the
sampled `IncompatibleMessagingPattern` service state to
`EventOpenError::PermissionDenied` even though its log message says the
messaging pattern does not match; `open_or_create` maps the very same
state to `IncompatibleMessagingPattern`, and so does
`verify_service_properties` for an available service whose deserialized
pattern is not `Event`. -/
theorem open_incompatible_pattern_yields_permission_denied :
    openLoop (EventBuilder.new ⟨1, 1, 4⟩) 1000
        (fun _ => .err .IncompatibleMessagingPattern) (fun n => n) true 1 0
      = some (.err .PermissionDenied) ∧
    open_or_create (EventBuilder.new ⟨1, 1, 4⟩) (.err .IncompatibleMessagingPattern)
        ⟨.absent, .ok (), .ok (), true, true⟩ 1000
        (fun _ => .err .IncompatibleMessagingPattern) (fun n => n) true 1
      = some (.errOpen .IncompatibleMessagingPattern) ∧
    verify_service_properties (EventBuilder.new ⟨1, 1, 4⟩) .publishSubscribe
      = .error .IncompatibleMessagingPattern := by
  decide

/-- C4: opening an available event service with all three minimums
requested (all verify flags armed): when every requested minimum is ≤
the existing setting the open succeeds and the returned factory carries
the existing settings; otherwise the first violated check (in source
order: notifiers, listeners, event-id) yields its matching error. -/
theorem open_verifies_requested_minimums (b : EventBuilder) (existing : EventStaticConfig)
    (creation_timeout fuel : Nat) (samples : Nat → AvailResult) (elapsed : Nat → Nat)
    (hsample : samples 0 = .someCfg (.event existing))
    (hb1 : b.verify_max_notifiers = true) (hb2 : b.verify_max_listeners = true)
    (hb3 : b.verify_event_id_max_value = true) :
    (b.service_config.max_notifiers ≤ existing.max_notifiers →
      b.service_config.max_listeners ≤ existing.max_listeners →
      b.service_config.event_id_max_value ≤ existing.event_id_max_value →
      openLoop b creation_timeout samples elapsed true (fuel + 1) 0 = some (.ok existing)) ∧
    (existing.max_notifiers < b.service_config.max_notifiers →
      openLoop b creation_timeout samples elapsed true (fuel + 1) 0
        = some (.err .DoesNotSupportRequestedAmountOfNotifiers)) ∧
    (b.service_config.max_notifiers ≤ existing.max_notifiers →
      existing.max_listeners < b.service_config.max_listeners →
      openLoop b creation_timeout samples elapsed true (fuel + 1) 0
        = some (.err .DoesNotSupportRequestedAmountOfListeners)) ∧
    (b.service_config.max_notifiers ≤ existing.max_notifiers →
      b.service_config.max_listeners ≤ existing.max_listeners →
      existing.event_id_max_value < b.service_config.event_id_max_value →
      openLoop b creation_timeout samples elapsed true (fuel + 1) 0
        = some (.err .DoesNotSupportRequestedMaxEventId)) := by
  refine ⟨?_, ?_, ?_, ?_⟩
  · intro h1 h2 h3
    simp [openLoop, hsample, verify_service_properties, hb1, hb2, hb3,
      Nat.not_lt.mpr h1, Nat.not_lt.mpr h2, Nat.not_lt.mpr h3]
  · intro h1
    simp [openLoop, hsample, verify_service_properties, hb1, h1]
  · intro h1 h2
    simp [openLoop, hsample, verify_service_properties, hb1, hb2, Nat.not_lt.mpr h1, h2]
  · intro h1 h2 h3
    simp [openLoop, hsample, verify_service_properties, hb1, hb2, hb3,
      Nat.not_lt.mpr h1, Nat.not_lt.mpr h2, h3]

/-- Witness for C4: a builder requesting minimums 2/3/4 opens a service
whose existing settings are 5/6/7 and the factory carries 5/6/7. -/
theorem open_verifies_requested_minimums_witness :
    openLoop ⟨⟨2, 3, 4⟩, true, true, true⟩ 50 (fun _ => .someCfg (.event ⟨5, 6, 7⟩))
        (fun n => n) true 1 0 = some (.ok ⟨5, 6, 7⟩) := by
  have h := (open_verifies_requested_minimums ⟨⟨2, 3, 4⟩, true, true, true⟩ ⟨5, 6, 7⟩ 50 0
      (fun _ => .someCfg (.event ⟨5, 6, 7⟩)) (fun n => n) rfl rfl rfl rfl).1
  exact h (by decide) (by decide) (by decide)

/-- Helper: with all verify flags off, `verify_service_properties` either
rejects a non-event pattern or returns the existing settings; it never
performs a minimum-capacity check. -/
theorem verify_no_flags_result (defaults : EventStaticConfig) (mp : MessagingPattern) :
    verify_service_properties (EventBuilder.new defaults) mp
        = .error .IncompatibleMessagingPattern ∨
    ∃ v, mp = .event v ∧
      verify_service_properties (EventBuilder.new defaults) mp = .ok v := by
  cases mp with
  | event v =>
    right
    exact ⟨v, rfl, by simp [verify_service_properties, EventBuilder.new]⟩
  | publishSubscribe => left; rfl

/-- C10: the minimum-capacity verifications run only for settings the
caller requested through a setter.  A builder fresh from
`EventBuilder.new` (no setter called, all verify flags off) can make
`open` fail, but never with `DoesNotSupportRequestedAmountOfNotifiers`,
`DoesNotSupportRequestedAmountOfListeners` or
`DoesNotSupportRequestedMaxEventId`, whatever the local defaults and the
existing service's settings are. -/
theorem open_without_requests_never_fails_capacity (defaults : EventStaticConfig)
    (creation_timeout : Nat) (samples : Nat → AvailResult) (elapsed : Nat → Nat)
    (dynOk : Bool) :
    ∀ fuel n r,
      openLoop (EventBuilder.new defaults) creation_timeout samples elapsed dynOk fuel n
        = some (.err r) →
      r ≠ .DoesNotSupportRequestedAmountOfNotifiers ∧
      r ≠ .DoesNotSupportRequestedAmountOfListeners ∧
      r ≠ .DoesNotSupportRequestedMaxEventId := by
  intro fuel
  induction fuel with
  | zero =>
    intro n r h
    simp [openLoop] at h
  | succ k ih =>
    intro n r h
    simp only [openLoop] at h
    cases hs : samples n with
    | absent =>
      rw [hs] at h
      simp only [Option.some.injEq, OpenResult.err.injEq] at h
      subst h
      decide
    | someCfg existing =>
      rw [hs] at h
      dsimp only at h
      rcases verify_no_flags_result defaults existing with hv | ⟨v, _, hv⟩
      · rw [hv] at h
        simp only [Option.some.injEq, OpenResult.err.injEq] at h
        subst h
        decide
      · rw [hv] at h
        cases hd : dynOk with
        | true =>
          rw [hd] at h
          simp at h
        | false =>
          rw [hd] at h
          simp only [Bool.false_eq_true, if_false, Option.some.injEq,
            OpenResult.err.injEq] at h
          subst h
          decide
    | err st =>
      rw [hs] at h
      cases st with
      | IsBeingCreatedByAnotherInstance =>
        by_cases ht : creation_timeout < elapsed (n + 1)
        · rw [if_pos ht] at h
          simp only [Option.some.injEq, OpenResult.err.injEq] at h
          subst h
          decide
        · rw [if_neg ht] at h
          exact ih (n + 1) r h
      | PermissionDenied =>
        simp only [Option.some.injEq, OpenResult.err.injEq] at h
        subst h
        decide
      | IncompatibleMessagingPattern =>
        simp only [Option.some.injEq, OpenResult.err.injEq] at h
        subst h
        decide
      | Corrupted =>
        simp only [Option.some.injEq, OpenResult.err.injEq] at h
        subst h
        decide

/-- Witness for C10: an open that fails with `DoesNotExist` on an absent
service; the result is none of the three capacity errors. -/
theorem open_without_requests_never_fails_capacity_witness :
    EventOpenError.DoesNotExist ≠ .DoesNotSupportRequestedAmountOfNotifiers ∧
    EventOpenError.DoesNotExist ≠ .DoesNotSupportRequestedAmountOfListeners ∧
    EventOpenError.DoesNotExist ≠ .DoesNotSupportRequestedMaxEventId :=
  open_without_requests_never_fails_capacity ⟨1, 1, 4⟩ 10 (fun _ => .absent)
    (fun n => n) true 1 0 .DoesNotExist rfl

/-- C5: `open_or_create` dispatches on the sampled state — to `open` when
the service is available or being created by another instance, to
`create` when it is absent — and when that create fails with
`AlreadyExists` or `IsBeingCreatedByAnotherInstance` it falls back to
`open` (on the builder whose capacities `create_impl` already clamped)
instead of returning the create error; every other create error is
returned as-is. -/
theorem open_or_create_dispatch (b : EventBuilder) (w : CreateWorld)
    (creation_timeout : Nat) (samples : Nat → AvailResult) (elapsed : Nat → Nat)
    (dynOk : Bool) (fuel : Nat) :
    (∀ existing,
      open_or_create b (.someCfg existing) w creation_timeout samples elapsed dynOk fuel
        = (openLoop b creation_timeout samples elapsed dynOk fuel 0).map ofOpen) ∧
    (open_or_create b (.err .IsBeingCreatedByAnotherInstance) w creation_timeout samples
        elapsed dynOk fuel
      = (openLoop b creation_timeout samples elapsed dynOk fuel 0).map ofOpen) ∧
    (∀ cfg, create_impl b w = .ok cfg →
      open_or_create b .absent w creation_timeout samples elapsed dynOk fuel
        = some (.ok cfg)) ∧
    ((create_impl b w = .err .AlreadyExists ∨
      create_impl b w = .err .IsBeingCreatedByAnotherInstance) →
      open_or_create b .absent w creation_timeout samples elapsed dynOk fuel
        = (openLoop (adjustBuilder b) creation_timeout samples elapsed dynOk fuel 0).map ofOpen) ∧
    (∀ e, create_impl b w = .err e → e ≠ .AlreadyExists →
      e ≠ .IsBeingCreatedByAnotherInstance →
      open_or_create b .absent w creation_timeout samples elapsed dynOk fuel
        = some (.errCreate e)) := by
  refine ⟨fun existing => rfl, rfl, ?_, ?_, ?_⟩
  · intro cfg hc
    simp [open_or_create, hc]
  · rintro (hc | hc) <;> simp [open_or_create, hc]
  · intro e hc h1 h2
    cases e <;>
      first
        | exact absurd rfl h1
        | exact absurd rfl h2
        | simp [open_or_create, hc]

/-- Witness for C5: an absent service is created; `open_or_create`
returns the created factory. -/
theorem open_or_create_dispatch_witness :
    open_or_create (EventBuilder.new ⟨1, 1, 4⟩) .absent ⟨.absent, .ok (), .ok (), true, true⟩
        10 (fun _ => .absent) (fun n => n) true 1 = some (.ok ⟨1, 1, 4⟩) :=
  (open_or_create_dispatch (EventBuilder.new ⟨1, 1, 4⟩) ⟨.absent, .ok (), .ok (), true, true⟩
      10 (fun _ => .absent) (fun n => n) true 1).2.2.1 ⟨1, 1, 4⟩ rfl

/-- C6: `create` on a service whose static artifact already exists fails
with `AlreadyExists` when the artifact is sealed — the exclusive creation
reports `AlreadyExists`, or the state sample already showed the service
available — and with `IsBeingCreatedByAnotherInstance` when the artifact
is still locked by another creator — the exclusive creation reports
`Creation`, or the state sample showed the being-created state. -/
theorem create_conflict_errors (b : EventBuilder) (w : CreateWorld) :
    (w.avail = .absent → w.static_create = .error .AlreadyExists →
      create_impl b w = .err .AlreadyExists) ∧
    (w.avail = .absent → w.static_create = .error .Creation →
      create_impl b w = .err .IsBeingCreatedByAnotherInstance) ∧
    (∀ existing, w.avail = .someCfg existing → create_impl b w = .err .AlreadyExists) ∧
    (w.avail = .err .IsBeingCreatedByAnotherInstance →
      create_impl b w = .err .IsBeingCreatedByAnotherInstance) := by
  refine ⟨?_, ?_, ?_, ?_⟩ <;> intros <;> simp_all [create_impl]

/-- Witness for C6: exclusive creation hits a sealed artifact. -/
theorem create_conflict_errors_witness :
    create_impl (EventBuilder.new ⟨1, 1, 4⟩)
        ⟨.absent, .error .AlreadyExists, .ok (), true, true⟩ = .err .AlreadyExists :=
  (create_conflict_errors (EventBuilder.new ⟨1, 1, 4⟩)
      ⟨.absent, .error .AlreadyExists, .ok (), true, true⟩).1 rfl rfl

/-- Helper: a successful `create_impl` always returns the clamped
settings of the builder. -/
theorem create_impl_ok_shape (b : EventBuilder) (w : CreateWorld) (cfg : EventStaticConfig)
    (h : create_impl b w = .ok cfg) :
    cfg = adjust_properties_to_meaningful_values b.service_config := by
  obtain ⟨avail, sc, dc, so, uo⟩ := w
  cases avail with
  | absent =>
    cases sc with
    | error e => cases e <;> simp [create_impl] at h
    | ok u =>
      cases dc with
      | error e => cases e <;> simp [create_impl] at h
      | ok v =>
        cases so <;> cases uo <;> simp [create_impl] at h
        exact h.symm
  | someCfg existing => simp [create_impl] at h
  | err st => cases st <;> simp [create_impl] at h

/-- Helper: the clamping of
`adjust_properties_to_meaningful_values` leaves both port capacities
at 1 or above. -/
theorem adjust_min_one (c : EventStaticConfig) :
    1 ≤ (adjust_properties_to_meaningful_values c).max_notifiers ∧
    1 ≤ (adjust_properties_to_meaningful_values c).max_listeners := by
  unfold adjust_properties_to_meaningful_values
  constructor <;> dsimp <;> split <;> omega

/-- C7: every service actually created through `create` (and hence
through the create path of `open_or_create`) carries a static config
with `max_notifiers ≥ 1` and `max_listeners ≥ 1`: the returned settings
are exactly the builder's settings after the 0-to-1 clamp that runs
before the static artifact is written. -/
theorem created_service_capacities_at_least_one (b : EventBuilder) (w : CreateWorld)
    (cfg : EventStaticConfig) (h : create_impl b w = .ok cfg) :
    1 ≤ cfg.max_notifiers ∧ 1 ≤ cfg.max_listeners ∧
    cfg = adjust_properties_to_meaningful_values b.service_config ∧
    (∀ creation_timeout samples elapsed dynOk fuel,
      open_or_create b .absent w creation_timeout samples elapsed dynOk fuel
        = some (.ok cfg)) := by
  have hs := create_impl_ok_shape b w cfg h
  subst hs
  refine ⟨(adjust_min_one b.service_config).1, (adjust_min_one b.service_config).2, rfl, ?_⟩
  intro creation_timeout samples elapsed dynOk fuel
  simp [open_or_create, h]

/-- Witness for C7: a creation requested with capacities 0/0 yields a
service with capacities 1/1, also through `open_or_create`. -/
theorem created_service_capacities_at_least_one_witness :
    1 ≤ (⟨1, 1, 4⟩ : EventStaticConfig).max_notifiers ∧
    1 ≤ (⟨1, 1, 4⟩ : EventStaticConfig).max_listeners ∧
    open_or_create (EventBuilder.new ⟨0, 0, 4⟩) .absent ⟨.absent, .ok (), .ok (), true, true⟩
        3 (fun _ => .absent) (fun n => n) true 1 = some (.ok ⟨1, 1, 4⟩) := by
  have h := created_service_capacities_at_least_one (EventBuilder.new ⟨0, 0, 4⟩)
      ⟨.absent, .ok (), .ok (), true, true⟩ ⟨1, 1, 4⟩ rfl
  exact ⟨h.1, h.2.1, h.2.2.2 3 (fun _ => .absent) (fun n => n) true 1⟩

/-- Helper: if every sample reports the being-created state and the
adaptive wait's cumulative time after the k-th wait is at least k, the
open loop returns `HangsInCreation` before the fuel runs out, for any
fuel that exceeds the creation timeout counted from the current
iteration. -/
theorem openLoop_hangs_in_creation (b : EventBuilder) (creation_timeout : Nat)
    (samples : Nat → AvailResult) (elapsed : Nat → Nat) (dynOk : Bool)
    (hsamples : ∀ k, samples k = .err .IsBeingCreatedByAnotherInstance)
    (hgrow : ∀ k, k + 1 ≤ elapsed (k + 1)) :
    ∀ fuel n, 1 ≤ fuel → creation_timeout < n + fuel →
      openLoop b creation_timeout samples elapsed dynOk fuel n
        = some (.err .HangsInCreation) := by
  intro fuel
  induction fuel with
  | zero =>
    intro n h1 _
    omega
  | succ k ih =>
    intro n _ hlt
    simp only [openLoop, hsamples n]
    by_cases ht : creation_timeout < elapsed (n + 1)
    · rw [if_pos ht]
    · rw [if_neg ht]
      have hub : elapsed (n + 1) ≤ creation_timeout := Nat.not_lt.mp ht
      have hlb : n + 1 ≤ elapsed (n + 1) := hgrow n
      exact ih (n + 1) (by omega) (by omega)

/-- C8: the `open` retry loop terminates.  While the service stays in
the being-created state the loop re-samples after an adaptive wait whose
cumulative time grows by at least one unit per iteration, so with any
fuel above the creation timeout the loop does not run out of fuel but
fails with `HangsInCreation` once the accumulated waiting time exceeds
the timeout. -/
theorem open_being_created_times_out (b : EventBuilder) (creation_timeout : Nat)
    (samples : Nat → AvailResult) (elapsed : Nat → Nat) (dynOk : Bool)
    (hsamples : ∀ k, samples k = .err .IsBeingCreatedByAnotherInstance)
    (hgrow : ∀ k, k + 1 ≤ elapsed (k + 1)) :
    ∀ fuel, creation_timeout + 1 ≤ fuel →
      openLoop b creation_timeout samples elapsed dynOk fuel 0
        = some (.err .HangsInCreation) := by
  intro fuel hf
  exact openLoop_hangs_in_creation b creation_timeout samples elapsed dynOk
    hsamples hgrow fuel 0 (by omega) (by omega)

/-- Witness for C8: timeout 3, the cumulative wait grows by one unit per
iteration, fuel 4 suffices: `open` fails with `HangsInCreation`. -/
theorem open_being_created_times_out_witness :
    openLoop (EventBuilder.new ⟨1, 1, 4⟩) 3
        (fun _ => .err .IsBeingCreatedByAnotherInstance) (fun k => k) true 4 0
      = some (.err .HangsInCreation) :=
  open_being_created_times_out (EventBuilder.new ⟨1, 1, 4⟩) 3
    (fun _ => .err .IsBeingCreatedByAnotherInstance) (fun k => k) true
    (fun _ => rfl) (fun k => Nat.le_refl (k + 1)) 4 (by omega)
